import Mathlib

/-!
Verification of the debug-trace request orchestrator
(`core/lib/zksync_core/src/api_server/web3/namespaces/debug.rs`).

The orchestrator's three handlers (`debug_trace_block_impl`,
`debug_trace_transaction_impl`, `debug_trace_call_impl`) and the
shared-argument assembly (`shared_args`) are embedded as pure functions over
an explicit environment `Env` that models the external collaborators
(storage, block resolution, the VM concurrency limiter and the VM itself).
Effects that the claims talk about (permit acquisition/release, tracer
attachment, the VM run, metric observation) are recorded in an event log
returned next to the handler result.
-/

namespace DebugNs

/-- Byte strings (`Vec<u8>`). -/
abbrev Bytes := List Nat

/-- Transaction / block hashes (`H256`), modelled as a number. -/
abbrev H256 := Nat

/-- Modelled from the spec (external `multivm` crate, not under `src/`):
revert data produced by a reverted execution, together with its
human-readable rendering (`VmRevertReason::to_string`). -/
structure VmRevertReason where
  msg : String
  data : Bytes
deriving Repr, DecidableEq

/-- The `to_string` rendering of a revert reason. -/
def VmRevertReason.stringify (r : VmRevertReason) : String := r.msg

/-- Modelled from the spec (external `multivm` crate, not under `src/`):
the reason of a fatal VM halt, together with its string rendering
(`Halt::to_string`). -/
structure HaltReason where
  msg : String
deriving Repr, DecidableEq

/-- The `to_string` rendering of a halt reason. -/
def HaltReason.stringify (h : HaltReason) : String := h.msg

/-- `multivm::interface::ExecutionResult` (external, modelled from the spec):
tagged three-way VM outcome. -/
inductive ExecutionResult : Type where
  | success (output : Bytes)
  | revert (output : VmRevertReason)
  | halt (reason : HaltReason)
deriving Repr, DecidableEq

/-- Statistics of a VM run; only `gas_used` is consumed by the orchestrator. -/
structure VmExecutionStatistics where
  gasUsed : Nat
deriving Repr, DecidableEq

/-- The value returned by `execute_tx_eth_call`: the three-way result plus
run statistics. -/
structure VmExecutionResultAndLogs where
  result : ExecutionResult
  statistics : VmExecutionStatistics
deriving Repr, DecidableEq

/-- `zksync_types::vm_trace::Call` (external, modelled from the spec):
recursive call-trace record — gas limit, gas used, transferred value, input
data, output data, optional revert reason, ordered children. -/
inductive Call : Type where
  | node (gas : Nat) (gasUsed : Nat) (value : Nat) (input : Bytes)
      (output : Bytes) (revertReason : Option String) (calls : List Call)
deriving Repr

/-- `Call::new_high_level` (external, modelled from the spec): build the root
trace node from the top-level execution facts and the captured subtree. -/
def Call.newHighLevel (gas gasUsed value : Nat) (input output : Bytes)
    (revertReason : Option String) (calls : List Call) : Call :=
  .node gas gasUsed value input output revertReason calls

/-- `zksync_types::api::DebugCall` (external, modelled from the spec): the
response-side call-trace record, converted from `Call`. -/
inductive DebugCall : Type where
  | node (gas : Nat) (gasUsed : Nat) (value : Nat) (input : Bytes)
      (output : Bytes) (revertReason : Option String)
      (calls : List DebugCall)
deriving Repr

/-- Children of a response trace node. -/
def DebugCall.calls : DebugCall → List DebugCall
  | .node _ _ _ _ _ _ cs => cs

/-- Payload output bytes of a response trace node. -/
def DebugCall.output : DebugCall → Bytes
  | .node _ _ _ _ o _ _ => o

/-- Revert reason recorded on a response trace node. -/
def DebugCall.revertReason : DebugCall → Option String
  | .node _ _ _ _ _ r _ => r

/-- Gas limit recorded on a response trace node. -/
def DebugCall.gas : DebugCall → Nat
  | .node g _ _ _ _ _ _ => g

/-- `result.calls = vec![]`: replace the children of a response trace node. -/
def DebugCall.setCalls : DebugCall → List DebugCall → DebugCall
  | .node g gu v i o r _, cs => .node g gu v i o r cs

mutual

/-- The `From<Call> for DebugCall` conversion (`call_trace.into()`),
structure preserving. -/
def Call.toDebugCall : Call → DebugCall
  | .node g gu v i o r cs => .node g gu v i o r (Call.toDebugCallList cs)

/-- Children conversion for `Call.toDebugCall`. -/
def Call.toDebugCallList : List Call → List DebugCall
  | [] => []
  | c :: cs => c.toDebugCall :: Call.toDebugCallList cs

end

/-- `zksync_types::api::ResultDebugCall`: wrapper around one trace in the
trace-by-block response. -/
structure ResultDebugCall where
  result : DebugCall
deriving Repr

/-- `zksync_types::api::BlockNumber`: symbolic or explicit block number. -/
inductive BlockNumber : Type where
  | committed
  | finalized
  | latest
  | earliest
  | pending
  | number (n : Nat)
deriving Repr, DecidableEq

/-- `zksync_types::api::BlockId`: a block reference by hash or number. -/
inductive BlockId : Type where
  | hash (h : H256)
  | number (n : BlockNumber)
deriving Repr, DecidableEq

/-- `CallTracerConfig` inside `TracerConfig`. -/
structure CallTracerConfig where
  onlyTopCall : Bool
deriving Repr, DecidableEq

/-- `zksync_types::api::TracerConfig`: request options for the handlers. -/
structure TracerConfig where
  tracerConfig : CallTracerConfig
deriving Repr, DecidableEq

/-- `Web3Error` variants reachable from the debug namespace. -/
inductive Web3Error : Type where
  | noBlock
  | internalError
  | submitTransactionError (reason : String) (data : Bytes)
  | serializationError (msg : String)
deriving Repr, DecidableEq

/-- Outcome of one handler invocation: a value, a `Web3Error`, or a panic
(a failed `unwrap` / invariant assertion — no value of any kind returned). -/
inductive Outcome (α : Type) : Type where
  | ok (a : α)
  | err (e : Web3Error)
  | panic
deriving Repr, DecidableEq

/-- Observable effects of one handler invocation, in order. -/
inductive Event : Type where
  | acquirePermit
  | attachTracer
  | vmStart
  | vmEnd
  | releasePermit
  | observe (blockDiff : Nat)
deriving Repr, DecidableEq

/-- Fee data of a built transaction; only `gas_limit` (a `U256`) is consumed
by the orchestrator. -/
structure Fee where
  gasLimit : Nat
deriving Repr, DecidableEq

/-- `tx.common_data` projection used by the orchestrator. -/
structure L2TxCommonData where
  fee : Fee
deriving Repr, DecidableEq

/-- `tx.execute` projection used by the orchestrator. -/
structure Execute where
  value : Nat
  calldata : Bytes
deriving Repr, DecidableEq

/-- `zksync_types::l2::L2Tx` as consumed by the orchestrator. -/
structure L2Tx where
  common_data : L2TxCommonData
  execute : Execute
deriving Repr, DecidableEq

/-- `U256::as_u32` (external `primitive-types`): the 256-to-32-bit
conversion; it panics (here: `none`) instead of wrapping when the value does
not fit in 32 bits. -/
def asU32 (n : Nat) : Option Nat :=
  if n < 2 ^ 32 then some n else none

/-- The call-tracer capture cell (`Arc<OnceCell<Vec<Call>>>`) as seen by the
orchestrator after the VM call has returned: the write-once content and the
number of references still held by others. -/
structure CellState where
  otherRefs : Nat
  content : Option (List Call)
deriving Repr

/-- `Arc::try_unwrap`: succeeds only when the caller holds the sole
remaining reference. -/
def CellState.tryUnwrap (c : CellState) : Option (Option (List Call)) :=
  if c.otherRefs = 0 then some c.content else none

/-- `Arc::try_unwrap(call_tracer_result).unwrap().take().unwrap_or_default()`:
assert sole ownership (panic — `none` — otherwise), then take the captured
tree or the empty default. -/
def extractCallTrace (c : CellState) : Option (List Call) :=
  match c.tryUnwrap with
  | none => none
  | some content => some (content.getD [])

/-- `zksync_types::AccountTreeId` (an account address), modelled as a
number; `AccountTreeId::default()` is the zero address. -/
structure AccountTreeId where
  address : Nat
deriving Repr, DecidableEq

instance : Inhabited AccountTreeId := ⟨⟨0⟩⟩

/-- Handle to the base system contracts bundle (opaque collaborator). -/
structure BaseSystemContracts where
  id : Nat
deriving Repr, DecidableEq

/-- Handle to the shared postgres storage caches (opaque collaborator). -/
structure PostgresStorageCaches where
  id : Nat
deriving Repr, DecidableEq

/-- `multivm::vm_latest::constants::BLOCK_GAS_LIMIT` (external): the
computational gas ceiling used for validation. -/
def BLOCK_GAS_LIMIT : Nat := 2 ^ 32 - 1

/-- `TxSharedArgs`: immutable per-request execution configuration. -/
structure TxSharedArgs where
  operator_account : AccountTreeId
  l1_gas_price : Nat
  fair_l2_gas_price : Nat
  base_system_contracts : BaseSystemContracts
  caches : PostgresStorageCaches
  validation_computational_gas_limit : Nat
  chain_id : Nat
deriving Repr, DecidableEq

/-- `TxSenderConfig` fields read by the debug namespace. -/
structure TxSenderConfig where
  fair_l2_gas_price : Nat
  chain_id : Nat
  vm_execution_cache_misses_limit : Option Nat
deriving Repr, DecidableEq

/-- `zksync_types::transaction_request::CallRequest`, kept opaque: the
orchestrator only forwards it to `L2Tx::from_request`. -/
structure CallRequest where
  id : Nat
deriving Repr, DecidableEq

/-- The environment: the node state (`RpcState` and friends) plus the
behaviour of every external collaborator the handlers call into. -/
structure Env where
  /-- Does `access_storage_tagged("api")` succeed? -/
  storageOk : Bool
  /-- `state.resolve_block`: block reference to concrete miniblock number;
  `none` means the reference is unresolvable (`Web3Error::NoBlock`). -/
  resolveBlock : BlockId → Option Nat
  /-- `blocks_web3_dal().get_trace_for_miniblock`: persisted traces of one
  block; `Except.error` is a storage failure. -/
  traceForMiniblock : Nat → Except String (List Call)
  /-- `transactions_dal().get_call_trace`: persisted trace of one
  transaction, absent when the transaction is unknown. -/
  callTrace : H256 → Option Call
  /-- `BlockArgs::new`: `Except.error` is a storage failure, `ok none` means
  the block reference does not resolve to a block. -/
  blockArgs : BlockId → Except String (Option Nat)
  /-- `L2Tx::from_request` on this request (external conversion). -/
  fromRequest : CallRequest → Except Web3Error L2Tx
  /-- `vm_concurrency_limiter().acquire()`: `false` means the pool is shut
  down and no permit is handed out. -/
  permitAvailable : Bool
  /-- Result of the VM run performed by `execute_tx_eth_call`. -/
  vmResult : VmExecutionResultAndLogs
  /-- The call tree the VM-side call tracer captures when it is attached. -/
  vmCapturedCalls : List Call
  /-- Whether an attached tracer actually writes the cell during this run. -/
  vmWritesCell : Bool
  /-- `state.last_sealed_miniblock`: the chain head miniblock number. -/
  lastSealedMiniblock : Nat
  /-- Sender configuration (`tx_sender.0.sender_config`). -/
  senderConfig : TxSenderConfig
  /-- `api_contracts.eth_call` handle. -/
  apiContractsEthCall : BaseSystemContracts
  /-- `tx_sender.storage_caches()` handle. -/
  storageCaches : PostgresStorageCaches

/-- `SealedMiniblockNumber::diff` (modelled from the spec): staleness of a
resolved block against the chain head, as a saturating difference. -/
def sealedDiff (head resolved : Nat) : Nat := head - resolved

/-- `shared_args` of `DebugNamespace`: the execution configuration
assembled fresh for every trace-by-call request. -/
def shared_args (env : Env) : TxSharedArgs :=
  { operator_account := default
    l1_gas_price := 100000
    fair_l2_gas_price := env.senderConfig.fair_l2_gas_price
    base_system_contracts := env.apiContractsEthCall
    caches := env.storageCaches
    validation_computational_gas_limit := BLOCK_GAS_LIMIT
    chain_id := env.senderConfig.chain_id }

/-- Read `only_top_call` from the optional tracer options, defaulting to
`false` — the common prelude of all three handlers. -/
def onlyTopCallOf (options : Option TracerConfig) : Bool :=
  (options.map fun o => o.tracerConfig.onlyTopCall).getD false

/-- Modelled from the spec (external `execution_sandbox::execute_tx_eth_call`,
not under `src/`): runs the VM while holding the permit it was handed,
releasing it exactly once when the call returns on every path; runs the
attached tracers, and an attached call tracer writes the captured tree into
the cell at most once; drops its clone of the cell handle before returning,
so the cell comes back with no other reference. Returns the VM result, the
cell state after the run, and the events in order. -/
def execute_tx_eth_call (env : Env) (args : TxSharedArgs) (tx : L2Tx)
    (tracerAttached : Bool) :
    VmExecutionResultAndLogs × CellState × List Event :=
  let _ := args
  let _ := tx
  let content :=
    if tracerAttached && env.vmWritesCell then some env.vmCapturedCalls
    else none
  (env.vmResult, ⟨0, content⟩, [.vmStart, .vmEnd, .releasePermit])

/-- `debug_trace_block_impl`: batch replay of the persisted traces of one
block, with `only_top_call` truncation and a staleness observation. -/
def debug_trace_block_impl (env : Env) (block_id : BlockId)
    (options : Option TracerConfig) :
    Outcome (List ResultDebugCall) × List Event :=
  let only_top_call := onlyTopCallOf options
  if !env.storageOk then (.err .internalError, [])
  else
    match env.resolveBlock block_id with
    | none => (.err .noBlock, [])
    | some block_number =>
      match env.traceForMiniblock block_number with
      | .error _ => (.err .internalError, [])
      | .ok call_trace =>
        let call_trace := call_trace.map fun ct =>
          let result := ct.toDebugCall
          let result := if only_top_call then result.setCalls [] else result
          ResultDebugCall.mk result
        let block_diff := sealedDiff env.lastSealedMiniblock block_number
        (.ok call_trace, [.observe block_diff])

/-- `debug_trace_transaction_impl`: replay of the persisted trace of one
transaction; absence is a normal `none` result, not an error. -/
def debug_trace_transaction_impl (env : Env) (tx_hash : H256)
    (options : Option TracerConfig) :
    Outcome (Option DebugCall) × List Event :=
  let only_top_call := onlyTopCallOf options
  if !env.storageOk then (.err .internalError, [])
  else
    let call_trace := env.callTrace tx_hash
    (.ok (call_trace.map fun ct =>
      let result := ct.toDebugCall
      if only_top_call then result.setCalls [] else result), [])

/-- `debug_trace_call_impl`: synchronous re-execution of a call against the
VM — resolve the block, build the transaction, acquire a permit, run the VM
with an optional call tracer, classify the outcome, extract the capture and
assemble the response, observing staleness. -/
def debug_trace_call_impl (env : Env) (request : CallRequest)
    (block_id : Option BlockId) (options : Option TracerConfig) :
    Outcome DebugCall × List Event :=
  let block_id := block_id.getD (BlockId.number BlockNumber.pending)
  let only_top_call := onlyTopCallOf options
  if !env.storageOk then (.err .internalError, [])
  else
    match env.blockArgs block_id with
    | .error _ => (.err .internalError, [])
    | .ok none => (.err .noBlock, [])
    | .ok (some resolved_block_number) =>
      match env.fromRequest request with
      | .error e => (.err e, [])
      | .ok tx =>
        if !env.permitAvailable then (.err .internalError, [])
        else
          let tracerAttached := !only_top_call
          let attachEvents : List Event :=
            if tracerAttached then [.attachTracer] else []
          let (result, cell, vmEvents) :=
            execute_tx_eth_call env (shared_args env) tx tracerAttached
          let events := Event.acquirePermit :: attachEvents ++ vmEvents
          match result.result with
          | .halt reason =>
            (.err (.submitTransactionError reason.stringify []), events)
          | .success output =>
            assemble env tx resolved_block_number output none cell events
          | .revert output =>
            assemble env tx resolved_block_number []
              (some output.stringify) cell events
where
  /-- The tail of `debug_trace_call_impl` after outcome classification:
  extract the capture, convert the gas limit, build the root node, observe
  staleness. -/
  assemble (env : Env) (tx : L2Tx) (resolved_block_number : Nat)
      (output : Bytes) (revert_reason : Option String) (cell : CellState)
      (events : List Event) : Outcome DebugCall × List Event :=
    match extractCallTrace cell with
    | none => (.panic, events)
    | some trace =>
      match asU32 tx.common_data.fee.gasLimit with
      | none => (.panic, events)
      | some gas_limit =>
        let call := Call.newHighLevel gas_limit
          env.vmResult.statistics.gasUsed tx.execute.value
          tx.execute.calldata output revert_reason trace
        let block_diff :=
          sealedDiff env.lastSealedMiniblock resolved_block_number
        (.ok call.toDebugCall, events ++ [.observe block_diff])

/-! ## Helper lemmas -/

/-- Setting the children of a response node indeed yields those children. -/
lemma DebugCall.calls_setCalls (d : DebugCall) (cs : List DebugCall) :
    (d.setCalls cs).calls = cs := by
  cases d; rfl

/-- Unfolding of `debug_trace_call_impl` once storage access, block
resolution, transaction building and permit acquisition have succeeded. -/
lemma trace_call_unfold (env : Env) (request : CallRequest)
    (block_id : Option BlockId) (options : Option TracerConfig)
    (n : Nat) (tx : L2Tx)
    (h1 : env.storageOk = true)
    (h2 : env.blockArgs (block_id.getD (BlockId.number BlockNumber.pending)) =
      .ok (some n))
    (h3 : env.fromRequest request = .ok tx)
    (h4 : env.permitAvailable = true) :
    debug_trace_call_impl env request block_id options =
      let tracerAttached := !onlyTopCallOf options
      let cell : CellState :=
        ⟨0, if tracerAttached && env.vmWritesCell then
              some env.vmCapturedCalls else none⟩
      let events := Event.acquirePermit ::
        (if tracerAttached then [Event.attachTracer] else []) ++
        [Event.vmStart, Event.vmEnd, Event.releasePermit]
      match env.vmResult.result with
      | .halt reason =>
        (.err (.submitTransactionError reason.stringify []), events)
      | .success output =>
        debug_trace_call_impl.assemble env tx n output none cell events
      | .revert output =>
        debug_trace_call_impl.assemble env tx n []
          (some output.stringify) cell events := by
  simp only [debug_trace_call_impl, h1, h2, h3, h4, execute_tx_eth_call,
    Bool.not_true, Bool.false_eq_true, if_false, ite_false]

/-- Unfolding of the response-assembly tail of `debug_trace_call_impl` when
the capture cell comes back with no other reference. -/
lemma assemble_unfold (env : Env) (tx : L2Tx) (n : Nat) (output : Bytes)
    (revert_reason : Option String) (content : Option (List Call))
    (events : List Event) :
    debug_trace_call_impl.assemble env tx n output revert_reason
        ⟨0, content⟩ events =
      match asU32 tx.common_data.fee.gasLimit with
      | none => (.panic, events)
      | some gas_limit =>
        (.ok (DebugCall.node gas_limit env.vmResult.statistics.gasUsed
            tx.execute.value tx.execute.calldata output revert_reason
            (Call.toDebugCallList (content.getD []))),
         events ++ [.observe (sealedDiff env.lastSealedMiniblock n)]) := by
  simp only [debug_trace_call_impl.assemble, extractCallTrace,
    CellState.tryUnwrap, if_pos rfl]
  cases asU32 tx.common_data.fee.gasLimit <;>
    simp [Call.newHighLevel, Call.toDebugCall]

/-- Every run of `debug_trace_call_impl` either fails before any effect
(empty event log) or has passed storage access, block resolution,
transaction building and permit acquisition. -/
lemma trace_call_shape (env : Env) (request : CallRequest)
    (block_id : Option BlockId) (options : Option TracerConfig) :
    (∃ e, debug_trace_call_impl env request block_id options =
      (.err e, [])) ∨
    (∃ n tx, env.storageOk = true ∧
      env.blockArgs (block_id.getD (BlockId.number BlockNumber.pending)) =
        .ok (some n) ∧
      env.fromRequest request = .ok tx ∧ env.permitAvailable = true) := by
  cases hst : env.storageOk with
  | false =>
    exact .inl ⟨.internalError, by simp [debug_trace_call_impl, hst]⟩
  | true =>
    rcases hba : env.blockArgs
        (block_id.getD (BlockId.number BlockNumber.pending)) with e | o
    · exact .inl ⟨.internalError,
        by simp [debug_trace_call_impl, hst, hba]⟩
    · rcases o with _ | n
      · exact .inl ⟨.noBlock, by simp [debug_trace_call_impl, hst, hba]⟩
      · rcases hfr : env.fromRequest request with e | tx
        · exact .inl ⟨e, by simp [debug_trace_call_impl, hst, hba, hfr]⟩
        · cases hpa : env.permitAvailable with
          | false =>
            exact .inl ⟨.internalError,
              by simp [debug_trace_call_impl, hst, hba, hfr, hpa]⟩
          | true => exact .inr ⟨n, tx, rfl, rfl, rfl, rfl⟩

/-- Event log of a run that passed admission: one permit acquisition, the
optional tracer attachment, the guarded VM run with its release, and at most
one trailing metric observation. -/
lemma trace_call_events (env : Env) (request : CallRequest)
    (block_id : Option BlockId) (options : Option TracerConfig)
    (n : Nat) (tx : L2Tx)
    (h1 : env.storageOk = true)
    (h2 : env.blockArgs (block_id.getD (BlockId.number BlockNumber.pending)) =
      .ok (some n))
    (h3 : env.fromRequest request = .ok tx)
    (h4 : env.permitAvailable = true) :
    ∃ l,
      (debug_trace_call_impl env request block_id options).2 =
        Event.acquirePermit ::
          (if onlyTopCallOf options then [] else [Event.attachTracer]) ++
          [Event.vmStart, Event.vmEnd, Event.releasePermit] ++ l ∧
      (l = [] ∨ ∃ d, l = [Event.observe d]) := by
  rw [trace_call_unfold env request block_id options n tx h1 h2 h3 h4]
  cases hvm : env.vmResult.result with
  | halt reason =>
    refine ⟨[], ?_, .inl rfl⟩
    cases h : onlyTopCallOf options <;> simp [h]
  | success output =>
    dsimp only
    rw [assemble_unfold]
    cases hg : asU32 tx.common_data.fee.gasLimit with
    | none =>
      refine ⟨[], ?_, .inl rfl⟩
      cases h : onlyTopCallOf options <;> simp [h]
    | some g =>
      refine ⟨[Event.observe (sealedDiff env.lastSealedMiniblock n)],
        ?_, .inr ⟨_, rfl⟩⟩
      cases h : onlyTopCallOf options <;> simp [h]
  | revert r =>
    dsimp only
    rw [assemble_unfold]
    cases hg : asU32 tx.common_data.fee.gasLimit with
    | none =>
      refine ⟨[], ?_, .inl rfl⟩
      cases h : onlyTopCallOf options <;> simp [h]
    | some g =>
      refine ⟨[Event.observe (sealedDiff env.lastSealedMiniblock n)],
        ?_, .inr ⟨_, rfl⟩⟩
      cases h : onlyTopCallOf options <;> simp [h]

/-! ## Sample inputs used by the witnesses -/

/-- A child trace node. -/
def sampleChild : Call := Call.node 9 9 9 [] [] none []

/-- A persisted trace with one nested call. -/
def sampleCall : Call := Call.node 1 2 3 [4] [5] none [sampleChild]

/-- A built transaction with a 32-bit-representable gas limit. -/
def sampleTx : L2Tx := ⟨⟨⟨21000⟩⟩, ⟨5, [1, 2]⟩⟩

/-- An opaque call request. -/
def sampleRequest : CallRequest := ⟨0⟩

/-- A fully happy-path environment: storage up, block 7 resolvable, head at
block 12, permit available, VM succeeding with output `[9, 9]`. -/
def env0 : Env where
  storageOk := true
  resolveBlock := fun _ => some 7
  traceForMiniblock := fun _ => .ok [sampleCall]
  callTrace := fun h => if h = 0 then none else some sampleCall
  blockArgs := fun _ => .ok (some 7)
  fromRequest := fun _ => .ok sampleTx
  permitAvailable := true
  vmResult := ⟨.success [9, 9], ⟨42⟩⟩
  vmCapturedCalls := [sampleCall]
  vmWritesCell := true
  lastSealedMiniblock := 12
  senderConfig := ⟨250000000, 270, none⟩
  apiContractsEthCall := ⟨1⟩
  storageCaches := ⟨2⟩

/-- `env0` with every block reference unresolvable. -/
def envNoBlock : Env :=
  { env0 with
    blockArgs := fun _ => .ok none
    resolveBlock := fun _ => none }

/-- `env0` with an unrelated-state twist: storage down, no permit, halting
VM, different chain head — used to check request-independence of the shared
execution arguments. -/
def envAlt : Env :=
  { env0 with
    storageOk := false
    permitAvailable := false
    vmResult := ⟨ExecutionResult.halt ⟨"out of gas"⟩, ⟨0⟩⟩
    lastSealedMiniblock := 999 }

/-! ## Claims -/

/-- C5: for every block reference that cannot be resolved to a concrete
block, trace-by-call and trace-by-block fail with the user-facing
`BlockNotFound` error (`Web3Error.noBlock`, not an internal error), with an
empty effect log — hence before any permit is acquired or any VM invoked. -/
theorem unresolvable_block_yields_block_not_found
    (env : Env) (request : CallRequest) (block_id : Option BlockId)
    (bid : BlockId) (options : Option TracerConfig)
    (h1 : env.storageOk = true)
    (hba : env.blockArgs (block_id.getD (BlockId.number BlockNumber.pending)) =
      .ok none)
    (hres : env.resolveBlock bid = none) :
    debug_trace_call_impl env request block_id options =
      (.err .noBlock, []) ∧
    debug_trace_block_impl env bid options = (.err .noBlock, []) := by
  constructor
  · simp [debug_trace_call_impl, h1, hba]
  · simp [debug_trace_block_impl, h1, hres]

/-- Witness for C5 on a concrete environment with unresolvable blocks. -/
theorem unresolvable_block_yields_block_not_found_witness :
    debug_trace_call_impl envNoBlock sampleRequest none none =
      (.err .noBlock, []) ∧
    debug_trace_block_impl envNoBlock (BlockId.number (BlockNumber.number 3))
      none = (.err .noBlock, []) :=
  unresolvable_block_yields_block_not_found envNoBlock sampleRequest none
    (BlockId.number (BlockNumber.number 3)) none rfl rfl rfl

/-- C6: for every transaction identity with no persisted trace,
trace-by-transaction returns an empty result (`none`) and never an error;
when a trace is present it is returned, with `onlyTopCall` truncation
applied when requested. -/
theorem trace_transaction_absent_is_none
    (env : Env) (h h' : H256) (options : Option TracerConfig) (ct : Call)
    (h1 : env.storageOk = true)
    (habs : env.callTrace h = none)
    (hpres : env.callTrace h' = some ct) :
    debug_trace_transaction_impl env h options = (.ok none, []) ∧
    debug_trace_transaction_impl env h' options =
      (.ok (some (if onlyTopCallOf options then ct.toDebugCall.setCalls []
                  else ct.toDebugCall)), []) := by
  constructor
  · simp [debug_trace_transaction_impl, h1, habs]
  · cases ho : onlyTopCallOf options <;>
      simp [debug_trace_transaction_impl, h1, hpres, ho]

/-- Witness for C6: hash 0 has no persisted trace, hash 1 has one. -/
theorem trace_transaction_absent_is_none_witness :
    debug_trace_transaction_impl env0 0 none = (.ok none, []) ∧
    debug_trace_transaction_impl env0 1 none =
      (.ok (some (if onlyTopCallOf none then sampleCall.toDebugCall.setCalls []
                  else sampleCall.toDebugCall)), []) :=
  trace_transaction_absent_is_none env0 0 1 none sampleCall rfl rfl rfl

/-- C7: the recorded staleness equals the chain head block number minus the
block number the request was evaluated against, in trace-by-block and in
trace-by-call (which computes it from the block context actually used for
execution); in particular head `k + 5` against block `k` records `5`, and
head `k` against block `k` records `0`. -/
theorem staleness_equals_head_minus_resolved
    (env : Env) (bid : BlockId) (block_id : Option BlockId)
    (options : Option TracerConfig) (request : CallRequest)
    (n m : Nat) (tx : L2Tx) (ts : List Call) (output : Bytes)
    (h1 : env.storageOk = true)
    (hres : env.resolveBlock bid = some n)
    (htr : env.traceForMiniblock n = .ok ts)
    (hba : env.blockArgs (block_id.getD (BlockId.number BlockNumber.pending)) =
      .ok (some m))
    (h3 : env.fromRequest request = .ok tx)
    (h4 : env.permitAvailable = true)
    (h5 : tx.common_data.fee.gasLimit < 2 ^ 32)
    (hvm : env.vmResult.result = .success output) :
    (debug_trace_block_impl env bid options).2 =
      [.observe (sealedDiff env.lastSealedMiniblock n)] ∧
    (∃ l, (debug_trace_call_impl env request block_id options).2 =
      l ++ [.observe (sealedDiff env.lastSealedMiniblock m)]) ∧
    (∀ k, sealedDiff (k + 5) k = 5 ∧ sealedDiff k k = 0) := by
  refine ⟨?_, ?_, ?_⟩
  · simp [debug_trace_block_impl, h1, hres, htr]
  · rw [trace_call_unfold env request block_id options m tx h1 hba h3 h4,
      hvm]
    dsimp only
    rw [assemble_unfold]
    rw [show asU32 tx.common_data.fee.gasLimit =
        some tx.common_data.fee.gasLimit from by
      unfold asU32; exact if_pos h5]
    exact ⟨_, rfl⟩
  · intro k
    exact ⟨by simp [sealedDiff], by simp [sealedDiff]⟩

/-- Witness for C7: head 12 against resolved block 7 records staleness 5. -/
theorem staleness_equals_head_minus_resolved_witness :
    (debug_trace_block_impl env0 (BlockId.number (BlockNumber.number 7))
        none).2 =
      [.observe (sealedDiff env0.lastSealedMiniblock 7)] ∧
    (∃ l, (debug_trace_call_impl env0 sampleRequest none none).2 =
      l ++ [.observe (sealedDiff env0.lastSealedMiniblock 7)]) ∧
    (∀ k, sealedDiff (k + 5) k = 5 ∧ sealedDiff k k = 0) :=
  staleness_equals_head_minus_resolved env0
    (BlockId.number (BlockNumber.number 7)) none none sampleRequest 7 7
    sampleTx [sampleCall] [9, 9] rfl rfl rfl rfl rfl rfl (by decide) rfl

/-- C8: the shared execution arguments are built fresh from node state
only: a zeroed (default) operator account and the fixed, non-configurable
L1 gas price 100000, independent of the request and of any execution-time
state (two environments agreeing on the node configuration yield identical
arguments). -/
theorem shared_args_fixed_defaults
    (env env' : Env)
    (hc : env.senderConfig = env'.senderConfig)
    (ha : env.apiContractsEthCall = env'.apiContractsEthCall)
    (hs : env.storageCaches = env'.storageCaches) :
    (shared_args env).operator_account = AccountTreeId.mk 0 ∧
    (shared_args env).l1_gas_price = 100000 ∧
    shared_args env = shared_args env' := by
  refine ⟨rfl, rfl, ?_⟩
  simp [shared_args, hc, ha, hs]

/-- Witness for C8: `env0` against a twisted environment with different
execution-time state but the same node configuration. -/
theorem shared_args_fixed_defaults_witness :
    (shared_args env0).operator_account = AccountTreeId.mk 0 ∧
    (shared_args env0).l1_gas_price = 100000 ∧
    shared_args env0 = shared_args envAlt :=
  shared_args_fixed_defaults env0 envAlt rfl rfl rfl

/-- C9: a trace-by-call request with no block reference is evaluated
exactly as if the caller had passed the symbolic pending block number —
the whole handler behaviour (response and effect log) coincides. -/
theorem trace_call_none_defaults_to_pending
    (env : Env) (request : CallRequest) (options : Option TracerConfig) :
    debug_trace_call_impl env request none options =
      debug_trace_call_impl env request
        (some (BlockId.number BlockNumber.pending)) options := rfl

/-- `env0` with a reverting VM. -/
def envRevert : Env :=
  { env0 with
    vmResult := ⟨ExecutionResult.revert ⟨"insufficient funds", [1]⟩, ⟨7⟩⟩ }

/-- `env0` with a halting VM. -/
def envHalt : Env :=
  { env0 with vmResult := ⟨ExecutionResult.halt ⟨"out of gas"⟩, ⟨0⟩⟩ }

/-- A built transaction whose gas limit does not fit in 32 bits. -/
def bigTx : L2Tx := ⟨⟨⟨2 ^ 32⟩⟩, ⟨5, [1, 2]⟩⟩

/-- `env0` building a transaction with a 33-bit gas limit. -/
def envBigGas : Env := { env0 with fromRequest := fun _ => .ok bigTx }

/-- C1: trace-by-call classifies the VM outcome exactly as: `success output`
yields a response with that output and no revert reason; `revert output`
yields a response with empty output bytes (the revert output bytes are
discarded) and the stringified reason; `halt reason` aborts the whole
request with a `SubmitTransactionError` carrying the halt reason string and
an empty associated-data list, producing no partial response. -/
theorem trace_call_outcome_classification
    (env : Env) (request : CallRequest) (block_id : Option BlockId)
    (options : Option TracerConfig) (n : Nat) (tx : L2Tx)
    (h1 : env.storageOk = true)
    (h2 : env.blockArgs (block_id.getD (BlockId.number BlockNumber.pending)) =
      .ok (some n))
    (h3 : env.fromRequest request = .ok tx)
    (h4 : env.permitAvailable = true)
    (h5 : tx.common_data.fee.gasLimit < 2 ^ 32) :
    (∀ output, env.vmResult.result = .success output →
      ∃ dc, (debug_trace_call_impl env request block_id options).1 = .ok dc ∧
        dc.output = output ∧ dc.revertReason = none) ∧
    (∀ r, env.vmResult.result = .revert r →
      ∃ dc, (debug_trace_call_impl env request block_id options).1 = .ok dc ∧
        dc.output = [] ∧ dc.revertReason = some r.stringify) ∧
    (∀ reason, env.vmResult.result = .halt reason →
      (debug_trace_call_impl env request block_id options).1 =
        .err (.submitTransactionError reason.stringify [])) := by
  have hu := trace_call_unfold env request block_id options n tx h1 h2 h3 h4
  have hg : asU32 tx.common_data.fee.gasLimit =
      some tx.common_data.fee.gasLimit := by
    unfold asU32; exact if_pos h5
  refine ⟨?_, ?_, ?_⟩
  · intro output hvm
    rw [hu, hvm]
    dsimp only
    rw [assemble_unfold, hg]
    exact ⟨_, rfl, rfl, rfl⟩
  · intro r hvm
    rw [hu, hvm]
    dsimp only
    rw [assemble_unfold, hg]
    exact ⟨_, rfl, rfl, rfl⟩
  · intro reason hvm
    rw [hu, hvm]

/-- Witness for C1: all three classifications on concrete environments. -/
theorem trace_call_outcome_classification_witness :
    (∃ dc, (debug_trace_call_impl env0 sampleRequest none none).1 = .ok dc ∧
      dc.output = [9, 9] ∧ dc.revertReason = none) ∧
    (∃ dc,
      (debug_trace_call_impl envRevert sampleRequest none none).1 = .ok dc ∧
      dc.output = [] ∧ dc.revertReason = some "insufficient funds") ∧
    ((debug_trace_call_impl envHalt sampleRequest none none).1 =
      .err (.submitTransactionError "out of gas" [])) := by
  refine ⟨?_, ?_, ?_⟩
  · exact (trace_call_outcome_classification env0 sampleRequest none none 7
      sampleTx rfl rfl rfl rfl (by decide)).1 [9, 9] rfl
  · exact (trace_call_outcome_classification envRevert sampleRequest none
      none 7 sampleTx rfl rfl rfl rfl (by decide)).2.1
      ⟨"insufficient funds", [1]⟩ rfl
  · exact (trace_call_outcome_classification envHalt sampleRequest none none
      7 sampleTx rfl rfl rfl rfl (by decide)).2.2 ⟨"out of gas"⟩ rfl

/-- C2: with `onlyTopCall = true` the nested-call sequence of every
returned trace is empty in all three handlers: trace-by-block truncates
each fetched trace, trace-by-transaction truncates the fetched trace, and
trace-by-call attaches no instrumentation tracer at all (no `attachTracer`
event) so the captured child list is empty — regardless of the underlying
execution's actual call depth. -/
theorem only_top_call_gives_empty_nested_calls
    (env : Env) (options : Option TracerConfig)
    (hopt : onlyTopCallOf options = true) :
    (∀ bid res ev, debug_trace_block_impl env bid options = (.ok res, ev) →
      ∀ r ∈ res, r.result.calls = []) ∧
    (∀ h dc ev,
      debug_trace_transaction_impl env h options = (.ok (some dc), ev) →
      dc.calls = []) ∧
    (∀ request block_id,
      Event.attachTracer ∉
        (debug_trace_call_impl env request block_id options).2 ∧
      ∀ dc,
        (debug_trace_call_impl env request block_id options).1 = .ok dc →
        dc.calls = []) := by
  refine ⟨?_, ?_, ?_⟩
  · intro bid res ev heq r hr
    cases hst : env.storageOk with
    | false => simp [debug_trace_block_impl, hst] at heq
    | true =>
      rcases hres : env.resolveBlock bid with _ | bn
      · simp [debug_trace_block_impl, hst, hres] at heq
      · rcases htr : env.traceForMiniblock bn with e | ts
        · simp [debug_trace_block_impl, hst, hres, htr] at heq
        · simp [debug_trace_block_impl, hst, hres, htr, hopt] at heq
          obtain ⟨hres', -⟩ := heq
          subst hres'
          rcases List.mem_map.1 hr with ⟨ct, -, rfl⟩
          exact DebugCall.calls_setCalls _ _
  · intro h dc ev heq
    cases hst : env.storageOk with
    | false => simp [debug_trace_transaction_impl, hst] at heq
    | true =>
      rcases hct : env.callTrace h with _ | ct
      · simp [debug_trace_transaction_impl, hst, hct] at heq
      · simp [debug_trace_transaction_impl, hst, hct, hopt] at heq
        obtain ⟨hdc, -⟩ := heq
        subst hdc
        exact DebugCall.calls_setCalls _ _
  · intro request block_id
    rcases trace_call_shape env request block_id options with
      ⟨e, hsh⟩ | ⟨n, tx, h1, h2, h3, h4⟩
    · constructor
      · rw [hsh]; simp
      · intro dc hdc
        rw [hsh] at hdc
        simp at hdc
    · constructor
      · obtain ⟨l, hev, hl⟩ :=
          trace_call_events env request block_id options n tx h1 h2 h3 h4
        rw [hev, hopt]
        rcases hl with rfl | ⟨d, rfl⟩ <;> simp
      · intro dc hdc
        rw [trace_call_unfold env request block_id options n tx
          h1 h2 h3 h4] at hdc
        cases hvm : env.vmResult.result with
        | halt reason =>
          rw [hvm] at hdc
          simp at hdc
        | success output =>
          rw [hvm] at hdc
          dsimp only at hdc
          rw [hopt] at hdc
          rw [assemble_unfold] at hdc
          rcases hg : asU32 tx.common_data.fee.gasLimit with _ | g <;>
            rw [hg] at hdc <;> simp [Call.toDebugCallList] at hdc
          subst hdc
          rfl
        | revert r =>
          rw [hvm] at hdc
          dsimp only at hdc
          rw [hopt] at hdc
          rw [assemble_unfold] at hdc
          rcases hg : asU32 tx.common_data.fee.gasLimit with _ | g <;>
            rw [hg] at hdc <;> simp [Call.toDebugCallList] at hdc
          subst hdc
          rfl

/-- Witness for C2 on `env0` with `onlyTopCall = true`. -/
theorem only_top_call_gives_empty_nested_calls_witness :
    (∀ bid res ev,
      debug_trace_block_impl env0 bid (some ⟨⟨true⟩⟩) = (.ok res, ev) →
      ∀ r ∈ res, r.result.calls = []) ∧
    (∀ h dc ev,
      debug_trace_transaction_impl env0 h (some ⟨⟨true⟩⟩) =
        (.ok (some dc), ev) →
      dc.calls = []) ∧
    (∀ request block_id,
      Event.attachTracer ∉
        (debug_trace_call_impl env0 request block_id (some ⟨⟨true⟩⟩)).2 ∧
      ∀ dc,
        (debug_trace_call_impl env0 request block_id
          (some ⟨⟨true⟩⟩)).1 = .ok dc →
        dc.calls = []) :=
  only_top_call_gives_empty_nested_calls env0 (some ⟨⟨true⟩⟩) rfl

/-- C3: after the VM call returns, the orchestrator asserts sole remaining
ownership of the trace-capture cell before extracting its value — a
remaining second reference makes the extraction fail loudly
(`extractCallTrace` returns `none`, the model of the panic) — and
extraction yields the captured call tree when a write occurred, or the
empty default when no write occurred (e.g. because `onlyTopCall` meant no
tracer was attached). -/
theorem capture_cell_sole_ownership
    (env : Env) (request : CallRequest) (block_id : Option BlockId)
    (options : Option TracerConfig) (n : Nat) (tx : L2Tx) (output : Bytes)
    (h1 : env.storageOk = true)
    (h2 : env.blockArgs (block_id.getD (BlockId.number BlockNumber.pending)) =
      .ok (some n))
    (h3 : env.fromRequest request = .ok tx)
    (h4 : env.permitAvailable = true)
    (h5 : tx.common_data.fee.gasLimit < 2 ^ 32)
    (hvm : env.vmResult.result = .success output) :
    (∀ c : CellState, c.otherRefs ≠ 0 → extractCallTrace c = none) ∧
    (∀ content, extractCallTrace ⟨0, content⟩ = some (content.getD [])) ∧
    (onlyTopCallOf options = true →
      ∃ dc, (debug_trace_call_impl env request block_id options).1 = .ok dc ∧
        dc.calls = []) ∧
    (onlyTopCallOf options = false → env.vmWritesCell = true →
      ∃ dc, (debug_trace_call_impl env request block_id options).1 = .ok dc ∧
        dc.calls = Call.toDebugCallList env.vmCapturedCalls) := by
  have hg : asU32 tx.common_data.fee.gasLimit =
      some tx.common_data.fee.gasLimit := by
    unfold asU32; exact if_pos h5
  refine ⟨?_, ?_, ?_, ?_⟩
  · intro c hc
    simp [extractCallTrace, CellState.tryUnwrap, hc]
  · intro content
    simp [extractCallTrace, CellState.tryUnwrap]
  · intro ho
    rw [trace_call_unfold env request block_id options n tx h1 h2 h3 h4, hvm]
    dsimp only
    rw [ho, assemble_unfold, hg]
    exact ⟨_, rfl, rfl⟩
  · intro ho hw
    rw [trace_call_unfold env request block_id options n tx h1 h2 h3 h4, hvm]
    dsimp only
    rw [ho, hw, assemble_unfold, hg]
    exact ⟨_, rfl, rfl⟩

/-- Witness for C3: a doubly-referenced cell fails loudly; a solely-owned
cell extracts; `env0` with and without `onlyTopCall`. -/
theorem capture_cell_sole_ownership_witness :
    extractCallTrace ⟨2, some [sampleCall]⟩ = none ∧
    extractCallTrace ⟨0, some [sampleCall]⟩ = some [sampleCall] ∧
    (∃ dc,
      (debug_trace_call_impl env0 sampleRequest none
        (some ⟨⟨true⟩⟩)).1 = .ok dc ∧ dc.calls = []) ∧
    (∃ dc, (debug_trace_call_impl env0 sampleRequest none none).1 = .ok dc ∧
      dc.calls = Call.toDebugCallList env0.vmCapturedCalls) := by
  have h := capture_cell_sole_ownership env0 sampleRequest none
    (some ⟨⟨true⟩⟩) 7 sampleTx [9, 9] rfl rfl rfl rfl (by decide) rfl
  have h' := capture_cell_sole_ownership env0 sampleRequest none none 7
    sampleTx [9, 9] rfl rfl rfl rfl (by decide) rfl
  exact ⟨h.1 ⟨2, some [sampleCall]⟩ (by decide),
    h.2.1 (some [sampleCall]), h.2.2.1 rfl, h'.2.2.2 rfl rfl⟩

/-- C4: every trace-by-call request that reaches slot acquisition acquires
exactly one execution permit before the VM is invoked, holds it for the
whole VM call, and releases it exactly once on every exit path out of the
execution phase (success, revert or halt): the event log contains exactly
one acquisition and one release, with the VM run bracketed between them. -/
theorem permit_lifecycle_exact
    (env : Env) (request : CallRequest) (block_id : Option BlockId)
    (options : Option TracerConfig) (n : Nat) (tx : L2Tx)
    (h1 : env.storageOk = true)
    (h2 : env.blockArgs (block_id.getD (BlockId.number BlockNumber.pending)) =
      .ok (some n))
    (h3 : env.fromRequest request = .ok tx)
    (h4 : env.permitAvailable = true) :
    ((debug_trace_call_impl env request block_id options).2.count
      Event.acquirePermit = 1) ∧
    ((debug_trace_call_impl env request block_id options).2.count
      Event.releasePermit = 1) ∧
    (∃ l₁ l₂, (debug_trace_call_impl env request block_id options).2 =
      Event.acquirePermit :: l₁ ++
        [Event.vmStart, Event.vmEnd, Event.releasePermit] ++ l₂) := by
  obtain ⟨l, hev, hl⟩ :=
    trace_call_events env request block_id options n tx h1 h2 h3 h4
  refine ⟨?_, ?_, ⟨_, l, hev⟩⟩
  · rw [hev]
    rcases hl with rfl | ⟨d, rfl⟩ <;>
      cases ho : onlyTopCallOf options <;>
      simp [ho, List.count_cons, List.count_append, List.count_nil]
  · rw [hev]
    rcases hl with rfl | ⟨d, rfl⟩ <;>
      cases ho : onlyTopCallOf options <;>
      simp [ho, List.count_cons, List.count_append, List.count_nil]

/-- Witness for C4 on the happy-path environment. -/
theorem permit_lifecycle_exact_witness :
    ((debug_trace_call_impl env0 sampleRequest none none).2.count
      Event.acquirePermit = 1) ∧
    ((debug_trace_call_impl env0 sampleRequest none none).2.count
      Event.releasePermit = 1) ∧
    (∃ l₁ l₂, (debug_trace_call_impl env0 sampleRequest none none).2 =
      Event.acquirePermit :: l₁ ++
        [Event.vmStart, Event.vmEnd, Event.releasePermit] ++ l₂) :=
  permit_lifecycle_exact env0 sampleRequest none none 7 sampleTx
    rfl rfl rfl rfl

/-- C10: the root trace node stores the declared gas limit converted by the
256-to-32-bit conversion (`asU32`), which fails loudly rather than
wrapping; hence whenever the constructed transaction's gas limit exceeds
`2 ^ 32 - 1`, the assembly step after a success or revert outcome does not
return a trace normally (it panics). -/
theorem gas_limit_over_u32_panics
    (env : Env) (request : CallRequest) (block_id : Option BlockId)
    (options : Option TracerConfig) (n : Nat) (tx : L2Tx)
    (h1 : env.storageOk = true)
    (h2 : env.blockArgs (block_id.getD (BlockId.number BlockNumber.pending)) =
      .ok (some n))
    (h3 : env.fromRequest request = .ok tx)
    (h4 : env.permitAvailable = true)
    (hbig : 2 ^ 32 ≤ tx.common_data.fee.gasLimit) :
    (∀ m, 2 ^ 32 ≤ m → asU32 m = none) ∧
    (∀ m, m < 2 ^ 32 → asU32 m = some m) ∧
    (∀ output, env.vmResult.result = .success output →
      (debug_trace_call_impl env request block_id options).1 = .panic) ∧
    (∀ r, env.vmResult.result = .revert r →
      (debug_trace_call_impl env request block_id options).1 = .panic) := by
  have hg : asU32 tx.common_data.fee.gasLimit = none := by
    unfold asU32; exact if_neg (Nat.not_lt.2 hbig)
  refine ⟨?_, ?_, ?_, ?_⟩
  · intro m hm; unfold asU32; exact if_neg (Nat.not_lt.2 hm)
  · intro m hm; unfold asU32; exact if_pos hm
  · intro output hvm
    rw [trace_call_unfold env request block_id options n tx h1 h2 h3 h4, hvm]
    dsimp only
    rw [assemble_unfold, hg]
  · intro r hvm
    rw [trace_call_unfold env request block_id options n tx h1 h2 h3 h4, hvm]
    dsimp only
    rw [assemble_unfold, hg]

/-- Witness for C10: a 2^32 gas limit makes the conversion fail and the
call handler panic rather than answer. -/
theorem gas_limit_over_u32_panics_witness :
    asU32 (2 ^ 32) = none ∧
    (debug_trace_call_impl envBigGas sampleRequest none none).1 = .panic := by
  have h := gas_limit_over_u32_panics envBigGas sampleRequest none none 7
    bigTx rfl rfl rfl rfl (by decide)
  exact ⟨h.1 (2 ^ 32) (le_refl _), h.2.2.1 [9, 9] rfl⟩

end DebugNs
